import Mathlib

set_option maxRecDepth 4096

/-!
Verification of the serial command / telemetry core of the ARGB fan
controller GUI (`src/FanControl_GUI.py`).

The Python program keeps per-channel telemetry histories in
`collections.deque(maxlen=200)` ring buffers, formats outbound serial
commands, and parses inbound newline-delimited frames (JSON objects or
free text).  We embed that core shallowly: the mutable GUI/controller
state becomes an explicit `GuiState` record, each Python method becomes a
pure state-transformation function, float arithmetic in `map_range`
becomes exact rational arithmetic (the operations exercised are exact),
and the serial port becomes a `writeOk : Bool` oracle together with a
`sent` log of transmitted strings.
-/

/-- The fixed channel capacity: `self.max_samples = 200`. -/
def max_samples : Nat := 200

/-- `deque(maxlen=cap).append x`: append on the right, evicting from the
left whenever the length would exceed `cap`. -/
def ringAppend {α : Type} (cap : Nat) (xs : List α) (x : α) : List α :=
  let ys := xs ++ [x]
  ys.drop (ys.length - cap)

/-- `map_range` from `FanControl_GUI.py` lines 1127-1132, with Python
floats modelled as exact rationals. -/
def map_range (x in_min in_max out_min out_max : ℚ) : ℚ :=
  if in_max = in_min then out_min
  else out_min + (x - in_min) / (in_max - in_min) * (out_max - out_min)

/-- Python `int(...)` applied to a float/rational: truncation toward
zero. -/
def pyInt (q : ℚ) : Int := Int.tdiv q.num q.den

/-- The GUI/controller state touched by the serial core.  Channels are the
ten `telemetry_channels` histories (each a `deque(maxlen=200)`); the
`sent` list logs every string passed to `serial_port.write`; `errors`
logs `messagebox` error/warning pop-ups; `scheduled` logs the
`apply_bound_tipsy` values queued onto the Tk event loop via
`root.after`; `clock` is an abstract monotone time source standing for
`datetime.now()`. -/
structure GuiState where
  is_connected : Bool
  macro_recording : Bool
  recorded_commands : List String
  brightness_val : Int
  speed_val : Int
  intensity_val : Int
  saturation_val : Int
  hue_rotation_val : Int
  tipsy_sync_value : Int
  tipsy_slider : Int
  bind_tipsy : Bool
  custom_rgb : Int × Int × Int
  chBR : List Int
  chM : List Int
  chS : List Int
  chI : List Int
  chSAT : List Int
  chH : List Int
  chR : List Int
  chG : List Int
  chBL : List Int
  chTS : List Int
  pwm_timestamps : List Nat
  clock : Nat
  history : List String
  errors : List String
  sent : List String
  scheduled : List Int

/-- `add_history`: append a message to the history log (timestamp prefix
and the text widget are elided; claims only concern which messages are
appended). -/
def add_history (st : GuiState) (msg : String) : GuiState :=
  { st with history := st.history ++ [msg] }

/-- `update_pwm_graph` (lines 759-770): append the brightness value to the
"BR" channel ring buffer and a timestamp to `pwm_timestamps`. -/
def update_pwm_graph (st : GuiState) (brightness : Int) : GuiState :=
  { st with
    chBR := ringAppend max_samples st.chBR brightness
    pwm_timestamps := ringAppend max_samples st.pwm_timestamps st.clock
    clock := st.clock + 1 }

/-- Python `s.startswith(pre)`: `pre` is a prefix of the character
sequence of `s`. -/
def pyStartsWith (s pre : String) : Bool :=
  pre.data.isPrefixOf s.data

/-- Python `s.endswith(suf)`: `suf` is a suffix of the character sequence
of `s`. -/
def pyEndsWith (s suf : String) : Bool :=
  suf.data.isSuffixOf s.data

/-- Python `s[2:-1]`: drop the first two and the last character. -/
def pySlice2m1 (s : String) : String :=
  String.mk ((s.data.drop 2).dropLast)

/-- Split leading decimal digits. -/
def takeDigits : List Char → List Char × List Char
  | [] => ([], [])
  | c :: cs =>
      if c.isDigit then
        let (ds, rest) := takeDigits cs
        (c :: ds, rest)
      else ([], c :: cs)

/-- Value of a digit string. -/
def digitsToNat (ds : List Char) : Nat :=
  ds.foldl (fun n c => 10 * n + (c.toNat - Char.toNat '0')) 0

/-- Python `int(s)` on a string: an optional minus sign followed by one or
more digits, consuming the whole string (other accepted Python spellings
— surrounding whitespace, a plus sign, underscores — do not occur in the
`~B<value>` directives this is applied to); anything else raises, which
the caller swallows. -/
def pyParseInt (s : String) : Option Int :=
  match s.data with
  | '-' :: rest =>
      let (ds, rest2) := takeDigits rest
      if ds.isEmpty ∨ ¬ rest2.isEmpty then none
      else some (-(digitsToNat ds : Int))
  | cs =>
      let (ds, rest2) := takeDigits cs
      if ds.isEmpty ∨ ¬ rest2.isEmpty then none
      else some ((digitsToNat ds : Int))

/-- `send_command` (lines 907-938).  `writeOk` tells whether
`serial_port.write` succeeds or raises.  Order of effects follows the
source: connection guard, macro recording of the un-normalized command,
newline normalization of single characters, extraction of `~B` values
into the "BR" buffer (`int(cmd[2:-1])`, modelled by `pyParseInt`,
failures swallowed), and finally the write attempt (on failure the
connection flag is dropped and an error pop-up is logged). -/
def send_command (writeOk : Bool) (st : GuiState) (cmd : String) : GuiState :=
  if !st.is_connected then
    { st with errors := st.errors ++ ["Not Connected"] }
  else
    let st :=
      if st.macro_recording then
        { st with recorded_commands := st.recorded_commands ++ [cmd] }
      else st
    let cmd := if cmd.length = 1 then cmd ++ "\n" else cmd
    let st :=
      if pyStartsWith cmd "~B" && pyEndsWith cmd "\n" then
        match pyParseInt (pySlice2m1 cmd) with
        | some pwm_val =>
            if 0 ≤ pwm_val && pwm_val ≤ 255 then update_pwm_graph st pwm_val
            else st
        | none => st
      else st
    if writeOk then
      { st with sent := st.sent ++ [cmd],
                history := st.history ++ ["-> Sent: " ++ cmd.trim] }
    else
      { st with errors := st.errors ++ ["Send Error"], is_connected := false }

/-- `_send_numeric_cmd` (lines 1271-1286): connection guard, macro
recording, then the raw write of the already-formatted directive. -/
def send_numeric_cmd (writeOk : Bool) (st : GuiState) (cmd : String) : GuiState :=
  if !st.is_connected then
    { st with errors := st.errors ++ ["Not Connected"] }
  else
    let st :=
      if st.macro_recording then
        { st with recorded_commands := st.recorded_commands ++ [cmd] }
      else st
    if writeOk then
      { st with sent := st.sent ++ [cmd],
                history := st.history ++ ["-> " ++ cmd.trim] }
    else
      { st with errors := st.errors ++ ["Send Error"], is_connected := false }

/-- `send_brightness` (lines 1244-1249): format `~B<value>\n`, send it via
`_send_numeric_cmd`, then update the PWM graph. -/
def send_brightness (writeOk : Bool) (st : GuiState) : GuiState :=
  let val := st.brightness_val
  let cmd := "~B" ++ toString val ++ "\n"
  let st := send_numeric_cmd writeOk st cmd
  update_pwm_graph st val

/-- `send_custom_rgb` (lines 1218-1241): format `G<r>,<g>,<b>\n`, record
it when macro recording, write it. -/
def send_custom_rgb (writeOk : Bool) (st : GuiState) : GuiState :=
  if !st.is_connected then
    { st with errors := st.errors ++ ["Not Connected"] }
  else
    let r := st.custom_rgb.1
    let g := st.custom_rgb.2.1
    let b := st.custom_rgb.2.2
    let command := "G" ++ toString r ++ "," ++ toString g ++ "," ++ toString b ++ "\n"
    let st :=
      if st.macro_recording then
        { st with recorded_commands := st.recorded_commands ++ [command] }
      else st
    if writeOk then
      { st with sent := st.sent ++ [command],
                history := st.history ++ ["-> Sent Custom RGB"] }
    else
      { st with errors := st.errors ++ ["Send Error"], is_connected := false }

/-- `apply_bound_tipsy` (lines 1111-1125): clamp to [32,255], move the
tipsy slider, then send `~T<value>\n` through `send_command`. -/
def apply_bound_tipsy (writeOk : Bool) (st : GuiState) (val : Int) : GuiState :=
  let v := max 32 (min 255 val)
  let st := { st with tipsy_sync_value := v, tipsy_slider := v }
  let st := send_command writeOk st ("~T" ++ toString v ++ "\n")
  add_history st ("-> Sent (bound): Tipsy Sync " ++ toString v)

/-- `toggle_macro_record` (lines 1288-1299): flip the flag; starting a
recording clears the recorded-commands sequence. -/
def toggle_macro_record (st : GuiState) : GuiState :=
  let st := { st with macro_recording := !st.macro_recording }
  if st.macro_recording then
    add_history { st with recorded_commands := [] } "[MACRO RECORD STARTED]"
  else
    add_history st "[MACRO RECORD STOPPED]"

/-- A parsed telemetry record: the flat key-to-integer mapping produced by
`json.loads` on a telemetry frame. -/
abbrev Telemetry : Type := List (String × Int)

/-- Dictionary lookup `key in telemetry` / `telemetry[key]`. -/
def Telemetry.find (t : Telemetry) (k : String) : Option Int :=
  List.lookup k t

/-- `read_serial`'s per-key channel fan-out, `if 'K' in telemetry:
channels['K']['history'].append(telemetry['K'])` (lines 962-996). -/
def chanUpd (t : Telemetry) (k : String) (old : List Int) : List Int :=
  match t.find k with
  | some v => ringAppend max_samples old v
  | none => old

/-- The scalar mirror `if 'K' in telemetry: <scalar> = telemetry['K']`
(lines 962-988, for the keys BR, S, I, SAT, H). -/
def scalarUpd (t : Telemetry) (k : String) (old : Int) : Int :=
  match t.find k with
  | some v => v
  | none => old

/-- The tipsy-bind side effect for key "S" (lines 970-979): when binding
is enabled, `int(map_range(int(telemetry['S']), 1, 200, 255, 50))` is
queued onto the UI event loop via `root.after(0, ...)`; nothing is sent
from the ingest task itself. -/
def schedUpd (t : Telemetry) (bind : Bool) (old : List Int) : List Int :=
  match t.find "S" with
  | some v =>
      if bind then old ++ [pyInt (map_range (v : ℚ) 1 200 255 50)]
      else old
  | none => old

/-- Processing one successfully parsed telemetry record (lines 961-997):
fan the recognized keys out into the channel buffers and scalar mirrors,
queue the tipsy-bind action for key "S", and append one timestamp to the
shared `pwm_timestamps` sequence.  The Python code performs these writes
in sequence; they touch pairwise-disjoint fields and each read precedes
every write of the same field, so the sequence is rendered as one
simultaneous record update. -/
def processTelemetry (st : GuiState) (t : Telemetry) : GuiState :=
  { st with
    chBR := chanUpd t "BR" st.chBR
    brightness_val := scalarUpd t "BR" st.brightness_val
    chM := chanUpd t "M" st.chM
    chS := chanUpd t "S" st.chS
    speed_val := scalarUpd t "S" st.speed_val
    scheduled := schedUpd t st.bind_tipsy st.scheduled
    chI := chanUpd t "I" st.chI
    intensity_val := scalarUpd t "I" st.intensity_val
    chSAT := chanUpd t "SAT" st.chSAT
    saturation_val := scalarUpd t "SAT" st.saturation_val
    chH := chanUpd t "H" st.chH
    hue_rotation_val := scalarUpd t "H" st.hue_rotation_val
    chR := chanUpd t "R" st.chR
    chG := chanUpd t "G" st.chG
    chBL := chanUpd t "BL" st.chBL
    chTS := chanUpd t "TS" st.chTS
    pwm_timestamps := ringAppend max_samples st.pwm_timestamps st.clock
    clock := st.clock + 1 }

/-- Drop leading JSON whitespace. -/
def skipSpaces : List Char → List Char
  | [] => []
  | c :: cs =>
      if c = ' ' ∨ c = '\t' ∨ c = '\n' ∨ c = '\r' then skipSpaces cs
      else c :: cs

/-- Characters of a JSON string key up to the closing quote. -/
def parseKeyChars : List Char → List Char → Option (String × List Char)
  | [], _ => none
  | c :: cs, acc =>
      if c = '"' then some (String.mk acc.reverse, cs)
      else parseKeyChars cs (c :: acc)

/-- A JSON string key, quotes included. -/
def parseKey (cs : List Char) : Option (String × List Char) :=
  match skipSpaces cs with
  | '"' :: rest => parseKeyChars rest []
  | _ => none

/-- A JSON integer (optional minus sign, at least one digit). -/
def parseIntCs (cs : List Char) : Option (Int × List Char) :=
  match cs with
  | '-' :: rest =>
      let (ds, rest2) := takeDigits rest
      if ds.isEmpty then none else some (-(digitsToNat ds : Int), rest2)
  | _ =>
      let (ds, rest2) := takeDigits cs
      if ds.isEmpty then none else some ((digitsToNat ds : Int), rest2)

/-- Add a member parsed earlier in the object text: with Python `dict`
semantics a later duplicate key wins, so an earlier binding is kept only
when the key is not bound in the rest of the object. -/
def insertEarlier (k : String) (v : Int) (t : Telemetry) : Telemetry :=
  if (List.lookup k t).isSome then t else (k, v) :: t

/-- The members of a JSON object after its opening brace, ending at the
closing brace; `fuel` bounds recursion (each member consumes characters). -/
def parseMembers : Nat → List Char → Option (Telemetry × List Char)
  | 0, _ => none
  | fuel + 1, cs =>
      match parseKey cs with
      | none => none
      | some (k, rest) =>
          match skipSpaces rest with
          | ':' :: rest2 =>
              match parseIntCs (skipSpaces rest2) with
              | none => none
              | some (v, rest3) =>
                  match skipSpaces rest3 with
                  | ',' :: rest4 =>
                      match parseMembers fuel rest4 with
                      | some (t, rest5) => some (insertEarlier k v t, rest5)
                      | none => none
                  | '\x7d' :: rest4 => some ([(k, v)], rest4)
                  | _ => none
          | _ => none

/-- Model of `json.loads` restricted to the telemetry grammar the device
uses: a single flat JSON object with string keys and integer values
(anything else — free text, nested or non-integer JSON, trailing
garbage — fails to parse, which the caller downgrades to a text
message).  `json.loads` is Python standard-library code, not code of
this repository. -/
def parseTelemetry (s : String) : Option Telemetry :=
  match skipSpaces s.data with
  | '\x7b' :: rest =>
      match skipSpaces rest with
      | '\x7d' :: rest2 => if (skipSpaces rest2).isEmpty then some [] else none
      | _ =>
          match parseMembers (s.data.length + 1) rest with
          | some (t, rest2) => if (skipSpaces rest2).isEmpty then some t else none
          | none => none
  | _ => none

/-- The body of `read_serial` for one received line (lines 956-1003): a
line beginning with a brace is parsed as JSON telemetry and fanned out
into the channel buffers; a parse failure or any other line is logged as
a plain received message. -/
def processLine (st : GuiState) (line : String) : GuiState :=
  if pyStartsWith line "\x7b" then
    match parseTelemetry line with
    | some t => processTelemetry st t
    | none => add_history st ("<- Received: " ++ line)
  else
    add_history st ("<- Received: " ++ line)

example : parseTelemetry "\x7b\"BR\":10,\"S\":5\x7d" = some [("BR", 10), ("S", 5)] := by
  decide

example : parseTelemetry "hello" = none := by decide

example : parseTelemetry "\x7b oops" = none := by decide

lemma ringAppend_eq {α : Type} (cap : Nat) (xs : List α) (x : α) :
    ringAppend cap xs x = (xs ++ [x]).drop (xs.length + 1 - cap) := by
  simp [ringAppend]

lemma length_ringAppend {α : Type} (cap : Nat) (xs : List α) (x : α) :
    (ringAppend cap xs x).length = min (xs.length + 1) cap := by
  rw [ringAppend_eq]
  simp
  omega

lemma foldl_ringAppend {α : Type} (cap : Nat) (vs : List α) :
    ∀ acc : List α, acc.length ≤ cap →
      List.foldl (ringAppend cap) acc vs
        = (acc ++ vs).drop (acc.length + vs.length - cap) := by
  induction vs with
  | nil =>
      intro acc hacc
      simp [Nat.sub_eq_zero_of_le hacc]
  | cons v vs ih =>
      intro acc hacc
      rw [List.foldl_cons,
          ih (ringAppend cap acc v) (by rw [length_ringAppend]; omega),
          ringAppend_eq]
      simp only [List.length_drop, List.length_append, List.length_cons,
        List.length_nil]
      rw [← List.drop_append_of_le_length (by simp), List.drop_drop]
      have hl : acc ++ [v] ++ vs = acc ++ v :: vs := by simp
      rw [hl]
      congr 1
      omega

lemma string_data_tilde_B : ("~B" : String).data = ['~', 'B'] := rfl

lemma string_data_tilde_T : ("~T" : String).data = ['~', 'T'] := rfl

lemma string_data_nl : ("\n" : String).data = ['\n'] := rfl

lemma string_mk_data (s : String) : String.mk s.data = s := rfl

lemma pyStartsWith_self_append (p s : String) : pyStartsWith (p ++ s) p = true := by
  simp [pyStartsWith]

lemma pyEndsWith_append_nl (s : String) : pyEndsWith (s ++ "\n") "\n" = true := by
  simp [pyEndsWith]

lemma string_length_tilde_B : ("~B" : String).length = 2 := rfl

lemma string_length_tilde_T : ("~T" : String).length = 2 := rfl

lemma string_length_nl : ("\n" : String).length = 1 := rfl

lemma pyStartsWith_tilde_T (s : String) : pyStartsWith ("~T" ++ s) "~B" = false := by
  simp [pyStartsWith, string_data_tilde_B, string_data_tilde_T, List.isPrefixOf]

lemma pySlice2m1_tilde_B (s : String) : pySlice2m1 ("~B" ++ s ++ "\n") = s := by
  simp [pySlice2m1, string_data_tilde_B, string_data_nl]

lemma length_tilde_B_cmd (s : String) : ("~B" ++ s ++ "\n").length = s.length + 3 := by
  simp [String.length_append, string_length_tilde_B, string_length_nl]
  omega

lemma length_tilde_T_cmd (s : String) : ("~T" ++ s ++ "\n").length = s.length + 3 := by
  simp [String.length_append, string_length_tilde_T, string_length_nl]
  omega

/-- A concrete state mirroring the `__init__` defaults (lines 26-78), with
the connection, recording and tipsy-bind flags as parameters. -/
def initState (conn rec bind : Bool) : GuiState where
  is_connected := conn
  macro_recording := rec
  recorded_commands := []
  brightness_val := 255
  speed_val := 10
  intensity_val := 128
  saturation_val := 255
  hue_rotation_val := 1
  tipsy_sync_value := 128
  tipsy_slider := 128
  bind_tipsy := bind
  custom_rgb := (255, 0, 0)
  chBR := []
  chM := []
  chS := []
  chI := []
  chSAT := []
  chH := []
  chR := []
  chG := []
  chBL := []
  chTS := []
  pwm_timestamps := []
  clock := 0
  history := []
  errors := []
  sent := []
  scheduled := []

/-- C1: channel ring buffers are bounded FIFOs of capacity 200: a sequence
of appends starting from the empty buffer yields exactly the last
`min(n, 200)` appended values in arrival order (hence length
`min(n, 200)`), and appending to a full buffer of 200 samples evicts
exactly the oldest element while the newest becomes the last. -/
theorem C1_ring_buffer_bounded_fifo :
    (∀ vs : List Int,
        (List.foldl (ringAppend max_samples) [] vs).length
            = min vs.length max_samples ∧
        List.foldl (ringAppend max_samples) [] vs
            = vs.drop (vs.length - max_samples)) ∧
    (∀ (buf : List Int) (x : Int), buf.length = max_samples →
        ringAppend max_samples buf x = buf.drop 1 ++ [x]) := by
  constructor
  · intro vs
    have h := foldl_ringAppend max_samples vs [] (by simp)
    simp only [List.nil_append, List.length_nil, Nat.zero_add] at h
    refine ⟨?_, h⟩
    rw [h, List.length_drop]
    omega
  · intro buf x hlen
    rw [ringAppend_eq, hlen, Nat.add_sub_cancel_left]
    exact List.drop_append_of_le_length (by rw [hlen]; norm_num [max_samples])

/-- Witness for C1 at concrete inputs: three appends into an empty buffer
keep all three values; an append to a full buffer of 200 zeros drops the
head and appends the new value. -/
theorem C1_ring_buffer_bounded_fifo_witness :
    ringAppend max_samples (List.replicate 200 (0 : Int)) 7
      = (List.replicate 200 (0 : Int)).drop 1 ++ [7] :=
  C1_ring_buffer_bounded_fifo.2 (List.replicate 200 0) 7 (by rw [List.length_replicate]; rfl)

/-- C2: `map_range` computes the linear interpolation
`out_min + (x - in_min) / (in_max - in_min) * (out_max - out_min)` for a
non-degenerate input range, returns `out_min` whenever
`in_min = in_max`, and in particular maps 1 to 255 and 200 to 50 for the
tipsy-bind ranges. -/
theorem C2_map_range_linear :
    (∀ x in_min in_max out_min out_max : ℚ, in_min ≠ in_max →
        map_range x in_min in_max out_min out_max
          = out_min + (x - in_min) / (in_max - in_min) * (out_max - out_min)) ∧
    (∀ x in_min out_min out_max : ℚ,
        map_range x in_min in_min out_min out_max = out_min) ∧
    map_range 1 1 200 255 50 = 255 ∧
    map_range 200 1 200 255 50 = 50 := by
  refine ⟨?_, ?_, by norm_num [map_range], by norm_num [map_range]⟩
  · intro x a b c d h
    simp only [map_range]
    rw [if_neg (fun hba => h hba.symm)]
  · intro x a c d
    simp [map_range]

/-- Witness for C2 at a concrete non-degenerate input. -/
theorem C2_map_range_linear_witness :
    map_range 7 1 200 255 50 = 255 + (7 - 1) / (200 - 1) * (50 - 255) :=
  C2_map_range_linear.1 7 1 200 255 50 (by norm_num)

/-- C9: processing one parsed telemetry frame appends exactly one
timestamp to the single shared `pwm_timestamps` sequence, however many
channel keys the frame carries; the sequence is capacity-bounded to 200;
and a non-telemetry line appends no timestamp at all. -/
theorem C9_one_timestamp_per_frame :
    (∀ (st : GuiState) (t : Telemetry),
        (processTelemetry st t).pwm_timestamps
          = ringAppend max_samples st.pwm_timestamps st.clock) ∧
    (∀ (st : GuiState) (t : Telemetry),
        (processTelemetry st t).pwm_timestamps.length
          = min (st.pwm_timestamps.length + 1) max_samples) ∧
    (∀ (st : GuiState) (line : String),
        pyStartsWith line "\x7b" = false ∨ parseTelemetry line = none →
        (processLine st line).pwm_timestamps = st.pwm_timestamps) := by
  refine ⟨fun st t => rfl, ?_, ?_⟩
  · intro st t
    rw [show (processTelemetry st t).pwm_timestamps
          = ringAppend max_samples st.pwm_timestamps st.clock from rfl]
    exact length_ringAppend ..
  · intro st line h
    rcases h with h | h
    · simp [processLine, h, add_history]
    · by_cases hs : pyStartsWith line "\x7b"
      · simp [processLine, hs, h, add_history]
      · simp [processLine, hs, add_history]

/-- Witness for C9: the text line `hello` appends no timestamp. -/
theorem C9_one_timestamp_per_frame_witness :
    (processLine (initState true false false) "hello").pwm_timestamps
      = (initState true false false).pwm_timestamps :=
  C9_one_timestamp_per_frame.2.2 (initState true false false) "hello"
    (Or.inl (by decide))

/-- C3: a received line is classified by its leading character: a line
beginning with a brace that parses as a flat JSON object is fanned out —
each recognized channel key present has its value appended to that
channel's ring buffer and its scalar mirror updated; the concrete frame
with BR=10 and S=5 appends 10 to "BR" and 5 to "S" and sets
brightness/speed to 10/5; any other line (no leading brace, or a parse
failure) is logged as opaque text and leaves every channel buffer
unchanged. -/
theorem C3_line_classification :
    (∀ (st : GuiState) (line : String) (t : Telemetry),
        pyStartsWith line "\x7b" = true → parseTelemetry line = some t →
        processLine st line = processTelemetry st t) ∧
    (∀ (st : GuiState) (t : Telemetry) (v : Int),
        (t.find "BR" = some v →
          (processTelemetry st t).chBR = ringAppend max_samples st.chBR v ∧
          (processTelemetry st t).brightness_val = v) ∧
        (t.find "M" = some v →
          (processTelemetry st t).chM = ringAppend max_samples st.chM v) ∧
        (t.find "S" = some v →
          (processTelemetry st t).chS = ringAppend max_samples st.chS v ∧
          (processTelemetry st t).speed_val = v) ∧
        (t.find "I" = some v →
          (processTelemetry st t).chI = ringAppend max_samples st.chI v ∧
          (processTelemetry st t).intensity_val = v) ∧
        (t.find "SAT" = some v →
          (processTelemetry st t).chSAT = ringAppend max_samples st.chSAT v ∧
          (processTelemetry st t).saturation_val = v) ∧
        (t.find "H" = some v →
          (processTelemetry st t).chH = ringAppend max_samples st.chH v ∧
          (processTelemetry st t).hue_rotation_val = v) ∧
        (t.find "R" = some v →
          (processTelemetry st t).chR = ringAppend max_samples st.chR v) ∧
        (t.find "G" = some v →
          (processTelemetry st t).chG = ringAppend max_samples st.chG v) ∧
        (t.find "BL" = some v →
          (processTelemetry st t).chBL = ringAppend max_samples st.chBL v) ∧
        (t.find "TS" = some v →
          (processTelemetry st t).chTS = ringAppend max_samples st.chTS v)) ∧
    (∀ st : GuiState,
        (processLine st "\x7b\"BR\":10,\"S\":5\x7d").chBR
            = ringAppend max_samples st.chBR 10 ∧
        (processLine st "\x7b\"BR\":10,\"S\":5\x7d").chS
            = ringAppend max_samples st.chS 5 ∧
        (processLine st "\x7b\"BR\":10,\"S\":5\x7d").brightness_val = 10 ∧
        (processLine st "\x7b\"BR\":10,\"S\":5\x7d").speed_val = 5) ∧
    (∀ (st : GuiState) (line : String),
        pyStartsWith line "\x7b" = false ∨ parseTelemetry line = none →
        (processLine st line).history
            = st.history ++ ["<- Received: " ++ line] ∧
        (processLine st line).chBR = st.chBR ∧
        (processLine st line).chM = st.chM ∧
        (processLine st line).chS = st.chS ∧
        (processLine st line).chI = st.chI ∧
        (processLine st line).chSAT = st.chSAT ∧
        (processLine st line).chH = st.chH ∧
        (processLine st line).chR = st.chR ∧
        (processLine st line).chG = st.chG ∧
        (processLine st line).chBL = st.chBL ∧
        (processLine st line).chTS = st.chTS) := by
  refine ⟨?_, ?_, ?_, ?_⟩
  · intro st line t hs hp
    simp [processLine, hs, hp]
  · intro st t v
    refine ⟨fun h => ⟨?_, ?_⟩, fun h => ?_, fun h => ⟨?_, ?_⟩, fun h => ⟨?_, ?_⟩,
        fun h => ⟨?_, ?_⟩, fun h => ⟨?_, ?_⟩, fun h => ?_, fun h => ?_,
        fun h => ?_, fun h => ?_⟩ <;>
      simp [processTelemetry, chanUpd, scalarUpd, h]
  · intro st
    have hp : parseTelemetry "\x7b\"BR\":10,\"S\":5\x7d"
        = some [("BR", (10 : Int)), ("S", 5)] := by decide
    have hs : pyStartsWith "\x7b\"BR\":10,\"S\":5\x7d" "\x7b" = true := by decide
    have hBR : Telemetry.find [("BR", (10 : Int)), ("S", 5)] "BR" = some 10 := by
      decide
    have hS : Telemetry.find [("BR", (10 : Int)), ("S", 5)] "S" = some 5 := by
      decide
    simp [processLine, hs, hp, processTelemetry, chanUpd, scalarUpd, hBR, hS]
  · intro st line h
    have htext : processLine st line = add_history st ("<- Received: " ++ line) := by
      rcases h with h | h
      · simp [processLine, h]
      · by_cases hs : pyStartsWith line "\x7b"
        · simp [processLine, hs, h]
        · simp [processLine, hs]
    rw [htext]
    exact ⟨rfl, rfl, rfl, rfl, rfl, rfl, rfl, rfl, rfl, rfl, rfl⟩

/-- Witness for C3: a parsed frame is handed to `processTelemetry`, and
the text line `hello` leaves the "BR" buffer unchanged. -/
theorem C3_line_classification_witness :
    processLine (initState true false false) "\x7b\"BR\":10\x7d"
        = processTelemetry (initState true false false) [("BR", 10)] ∧
    (processLine (initState true false false) "hello").chBR
        = (initState true false false).chBR :=
  ⟨C3_line_classification.1 (initState true false false) "\x7b\"BR\":10\x7d"
      [("BR", 10)] (by decide) (by decide),
   (C3_line_classification.2.2.2 (initState true false false) "hello"
      (Or.inl (by decide))).2.1⟩

lemma pyStartsWith_tilde_T_cmd (s t : String) :
    pyStartsWith ("~T" ++ s ++ t) "~B" = false := by
  simp [pyStartsWith, string_data_tilde_B, string_data_tilde_T, List.isPrefixOf]

lemma tilde_T_cmd_length_ne (s : String) : ¬ ("~T" ++ s ++ "\n").length = 1 := by
  rw [length_tilde_T_cmd]
  omega

/-- C4: with tipsy binding enabled, a telemetry record carrying key "S"
with value `s` queues `int(map_range(s, 1, 200, 255, 50))` onto the UI
event loop (the ingest step itself transmits nothing and does not touch
the slider); the queued `apply_bound_tipsy` then clamps the value to
[32, 255], moves the tipsy slider to it, and transmits `~T<value>\n`
through the Command Channel. -/
theorem C4_bind_tipsy_to_speed :
    (∀ (st : GuiState) (t : Telemetry) (s : Int),
        st.bind_tipsy = true → t.find "S" = some s →
        (processTelemetry st t).scheduled
            = st.scheduled ++ [pyInt (map_range (s : ℚ) 1 200 255 50)] ∧
        (processTelemetry st t).sent = st.sent ∧
        (processTelemetry st t).tipsy_slider = st.tipsy_slider) ∧
    (∀ (st : GuiState) (v : Int), st.is_connected = true →
        (apply_bound_tipsy true st v).tipsy_slider = max 32 (min 255 v) ∧
        (apply_bound_tipsy true st v).tipsy_sync_value = max 32 (min 255 v) ∧
        (apply_bound_tipsy true st v).sent
            = st.sent ++ ["~T" ++ toString (max 32 (min 255 v)) ++ "\n"]) := by
  constructor
  · intro st t s hb hS
    exact ⟨by simp [processTelemetry, schedUpd, hb, hS], rfl, rfl⟩
  · intro st v hconn
    have hlen : ¬ (("~T" : String).length
        + (toString (max 32 (min 255 v))).length
        + ("\n" : String).length = 1) := by
      rw [string_length_tilde_T, string_length_nl]
      omega
    by_cases hm : st.macro_recording <;>
      refine ⟨?_, ?_, ?_⟩ <;>
        simp [apply_bound_tipsy, send_command, add_history, hconn, hm, hlen,
          tilde_T_cmd_length_ne, pyStartsWith_tilde_T_cmd]

/-- Witness for C4: a frame with S=100 under binding queues the mapped
value, and `apply_bound_tipsy` on 300 clamps to 255 and transmits
`~T255\n`. -/
theorem C4_bind_tipsy_to_speed_witness :
    (processTelemetry (initState true false true) [("S", 100)]).scheduled
        = (initState true false true).scheduled
            ++ [pyInt (map_range ((100 : Int) : ℚ) 1 200 255 50)] ∧
    (apply_bound_tipsy true (initState true false false) 300).sent
        = (initState true false false).sent
            ++ ["~T" ++ toString (max 32 (min 255 (300 : Int))) ++ "\n"] :=
  ⟨(C4_bind_tipsy_to_speed.1 (initState true false true) [("S", 100)] 100
      rfl (by decide)).1,
   (C4_bind_tipsy_to_speed.2 (initState true false false) 300 rfl).2.2⟩

lemma pyStartsWith_tilde_B_cmd (s t : String) :
    pyStartsWith ("~B" ++ s ++ t) "~B" = true := by
  simp [pyStartsWith, string_data_tilde_B, List.isPrefixOf]

/-- C5: while connected, sending a brightness directive `~B<v>\n` with
`0 ≤ v ≤ 255` through `send_command` appends `v` to the "BR" channel
ring buffer (driven purely by the outgoing command, not by received
telemetry). -/
theorem C5_brightness_extraction :
    ∀ (st : GuiState) (s : String) (v : Int),
      st.is_connected = true → pyParseInt s = some v → 0 ≤ v → v ≤ 255 →
      (send_command true st ("~B" ++ s ++ "\n")).chBR
          = ringAppend max_samples st.chBR v := by
  intro st s v hconn hi h0 h255
  have hlen : ¬ (("~B" : String).length + s.length + ("\n" : String).length
      = 1) := by
    rw [string_length_tilde_B, string_length_nl]
    omega
  by_cases hm : st.macro_recording <;>
    simp [send_command, update_pwm_graph, hconn, hm, hlen,
      pyStartsWith_tilde_B_cmd, pyEndsWith_append_nl, pySlice2m1_tilde_B,
      hi, h0, h255]

/-- Witness for C5: sending `~B200\n` from a fresh connected state appends
200 to the "BR" buffer. -/
theorem C5_brightness_extraction_witness :
    (send_command true (initState true false false) ("~B" ++ "200" ++ "\n")).chBR
        = ringAppend max_samples (initState true false false).chBR 200 :=
  C5_brightness_extraction (initState true false false) "200" 200 rfl
    (by decide) (by decide) (by decide)

/-- C8: exact wire bytes: every one-character command `c` is transmitted
as `c` followed by `\n` (in particular `R` as `R\n`); `send_brightness`
with brightness 128 transmits `~B128\n`; `send_custom_rgb` with
(255,128,64) transmits `G255,128,64\n`. -/
theorem C8_wire_format :
    (∀ (st : GuiState) (c : String), st.is_connected = true → c.length = 1 →
        (send_command true st c).sent = st.sent ++ [c ++ "\n"]) ∧
    (∀ st : GuiState, st.is_connected = true → st.brightness_val = 128 →
        (send_brightness true st).sent = st.sent ++ ["~B128\n"]) ∧
    (∀ st : GuiState, st.is_connected = true → st.custom_rgb = (255, 128, 64) →
        (send_custom_rgb true st).sent = st.sent ++ ["G255,128,64\n"]) := by
  refine ⟨?_, ?_, ?_⟩
  · intro st c hconn hlen
    by_cases hm : st.macro_recording <;>
      simp [send_command, hconn, hm, hlen] <;>
      (repeat' split) <;> simp [update_pwm_graph]
  · intro st hconn hb
    have h1 : ("~B" : String) ++ toString (128 : Int) ++ "\n" = "~B128\n" := rfl
    by_cases hm : st.macro_recording <;>
      simp [send_brightness, send_numeric_cmd, update_pwm_graph, hconn, hm,
        hb, h1]
  · intro st hconn hrgb
    have h1 : ("G" : String) ++ toString (255 : Int) ++ "," ++ toString (128 : Int)
        ++ "," ++ toString (64 : Int) ++ "\n" = "G255,128,64\n" := rfl
    by_cases hm : st.macro_recording <;>
      simp [send_custom_rgb, hconn, hm, hrgb, h1]

/-- Witness for C8 at a fresh connected state with brightness 128 and
custom RGB (255,128,64). -/
theorem C8_wire_format_witness :
    (send_command true (initState true false false) "R").sent
        = (initState true false false).sent ++ ["R" ++ "\n"] ∧
    (send_brightness true
        { initState true false false with brightness_val := 128 }).sent
        = ({ initState true false false with brightness_val := 128 } :
            GuiState).sent ++ ["~B128\n"] ∧
    (send_custom_rgb true
        { initState true false false with custom_rgb := (255, 128, 64) }).sent
        = ({ initState true false false with custom_rgb := (255, 128, 64) } :
            GuiState).sent ++ ["G255,128,64\n"] :=
  ⟨C8_wire_format.1 (initState true false false) "R" rfl rfl,
   C8_wire_format.2.1 _ rfl rfl,
   C8_wire_format.2.2 _ rfl rfl⟩

lemma send_command_recorded (wk : Bool) (st : GuiState) (cmd : String)
    (hconn : st.is_connected = true) :
    (send_command wk st cmd).recorded_commands
      = (if st.macro_recording then st.recorded_commands ++ [cmd]
         else st.recorded_commands) := by
  by_cases hm : st.macro_recording <;>
    simp [send_command, hconn, hm] <;>
    (repeat' split) <;> simp [update_pwm_graph]

lemma send_command_fail (st : GuiState) (cmd : String)
    (hconn : st.is_connected = true) :
    (send_command false st cmd).is_connected = false ∧
    (send_command false st cmd).errors = st.errors ++ ["Send Error"] ∧
    (send_command false st cmd).sent = st.sent := by
  refine ⟨?_, ?_, ?_⟩ <;>
    (by_cases hm : st.macro_recording <;>
      simp [send_command, hconn, hm] <;>
      (repeat' split) <;> simp [update_pwm_graph])

lemma send_numeric_cmd_recorded (wk : Bool) (st : GuiState) (cmd : String)
    (hconn : st.is_connected = true) :
    (send_numeric_cmd wk st cmd).recorded_commands
      = (if st.macro_recording then st.recorded_commands ++ [cmd]
         else st.recorded_commands) := by
  cases wk <;> by_cases hm : st.macro_recording <;>
    simp [send_numeric_cmd, hconn, hm]

lemma send_numeric_cmd_fail (st : GuiState) (cmd : String)
    (hconn : st.is_connected = true) :
    (send_numeric_cmd false st cmd).is_connected = false ∧
    (send_numeric_cmd false st cmd).errors = st.errors ++ ["Send Error"] ∧
    (send_numeric_cmd false st cmd).sent = st.sent := by
  refine ⟨?_, ?_, ?_⟩ <;>
    (by_cases hm : st.macro_recording <;> simp [send_numeric_cmd, hconn, hm])

lemma send_custom_rgb_recorded (wk : Bool) (st : GuiState)
    (hconn : st.is_connected = true) :
    (send_custom_rgb wk st).recorded_commands
      = (if st.macro_recording then
          st.recorded_commands
            ++ ["G" ++ toString st.custom_rgb.1 ++ ","
                ++ toString st.custom_rgb.2.1 ++ ","
                ++ toString st.custom_rgb.2.2 ++ "\n"]
         else st.recorded_commands) := by
  cases wk <;> by_cases hm : st.macro_recording <;>
    simp [send_custom_rgb, hconn, hm]

/-- C6: while macro recording is active, every command passed through the
Command Channel (`send_command`, `_send_numeric_cmd`, `send_custom_rgb`)
is appended at the end of the recorded-commands sequence; with recording
inactive, the sequence is left unchanged — and stopping a recording
turns the flag off, so no later command is appended. -/
theorem C6_macro_recording :
    (∀ (wk : Bool) (st : GuiState) (cmd : String),
        st.is_connected = true → st.macro_recording = true →
        (send_command wk st cmd).recorded_commands
            = st.recorded_commands ++ [cmd]) ∧
    (∀ (wk : Bool) (st : GuiState) (cmd : String),
        st.is_connected = true → st.macro_recording = true →
        (send_numeric_cmd wk st cmd).recorded_commands
            = st.recorded_commands ++ [cmd]) ∧
    (∀ (wk : Bool) (st : GuiState),
        st.is_connected = true → st.macro_recording = true →
        (send_custom_rgb wk st).recorded_commands
            = st.recorded_commands
              ++ ["G" ++ toString st.custom_rgb.1 ++ ","
                  ++ toString st.custom_rgb.2.1 ++ ","
                  ++ toString st.custom_rgb.2.2 ++ "\n"]) ∧
    (∀ (wk : Bool) (st : GuiState) (cmd : String),
        st.is_connected = true → st.macro_recording = false →
        (send_command wk st cmd).recorded_commands = st.recorded_commands ∧
        (send_numeric_cmd wk st cmd).recorded_commands
            = st.recorded_commands ∧
        (send_custom_rgb wk st).recorded_commands = st.recorded_commands) ∧
    (∀ st : GuiState, st.macro_recording = true →
        (toggle_macro_record st).macro_recording = false) := by
  refine ⟨?_, ?_, ?_, ?_, ?_⟩
  · intro wk st cmd hconn hm
    rw [send_command_recorded wk st cmd hconn, if_pos hm]
  · intro wk st cmd hconn hm
    rw [send_numeric_cmd_recorded wk st cmd hconn, if_pos hm]
  · intro wk st hconn hm
    rw [send_custom_rgb_recorded wk st hconn, if_pos hm]
  · intro wk st cmd hconn hm
    refine ⟨?_, ?_, ?_⟩
    · rw [send_command_recorded wk st cmd hconn, if_neg (by simp [hm])]
    · rw [send_numeric_cmd_recorded wk st cmd hconn, if_neg (by simp [hm])]
    · rw [send_custom_rgb_recorded wk st hconn, if_neg (by simp [hm])]
  · intro st hm
    simp [toggle_macro_record, add_history, hm]

/-- Witness for C6: with recording active, sending `R` appends it to the
recorded sequence; after stopping, the flag is off. -/
theorem C6_macro_recording_witness :
    (send_command true (initState true true false) "R").recorded_commands
        = (initState true true false).recorded_commands ++ ["R"] ∧
    (toggle_macro_record (initState true true false)).macro_recording
        = false :=
  ⟨C6_macro_recording.1 true (initState true true false) "R" rfl rfl,
   C6_macro_recording.2.2.2.2 (initState true true false) rfl⟩

/-- C7: when the serial write raises, the failure is surfaced as an error
pop-up, the connection state flips to disconnected, and nothing is
(re)transmitted — the `sent` log is unchanged, so reconnection requires a
fresh user action. -/
theorem C7_transmit_failure :
    (∀ (st : GuiState) (cmd : String), st.is_connected = true →
        (send_command false st cmd).is_connected = false ∧
        (send_command false st cmd).errors = st.errors ++ ["Send Error"] ∧
        (send_command false st cmd).sent = st.sent) ∧
    (∀ (st : GuiState) (cmd : String), st.is_connected = true →
        (send_numeric_cmd false st cmd).is_connected = false ∧
        (send_numeric_cmd false st cmd).errors = st.errors ++ ["Send Error"] ∧
        (send_numeric_cmd false st cmd).sent = st.sent) :=
  ⟨fun st cmd hconn => send_command_fail st cmd hconn,
   fun st cmd hconn => send_numeric_cmd_fail st cmd hconn⟩

/-- Witness for C7: a failing write of `R` from a fresh connected state
drops the connection and transmits nothing. -/
theorem C7_transmit_failure_witness :
    (send_command false (initState true false false) "R").is_connected
        = false ∧
    (send_command false (initState true false false) "R").errors
        = (initState true false false).errors ++ ["Send Error"] ∧
    (send_command false (initState true false false) "R").sent
        = (initState true false false).sent :=
  C7_transmit_failure.1 (initState true false false) "R" rfl

/-- C10: a failed send of a brightness directive is not atomic: the append
to "BR" and (with recording active) the macro-recording append both
happen before the write, so they persist when the write raises; only the
connection flag is reset and nothing reaches the wire. -/
theorem C10_failed_send_not_atomic :
    ∀ (st : GuiState) (s : String) (v : Int),
      st.is_connected = true → st.macro_recording = true →
      pyParseInt s = some v → 0 ≤ v → v ≤ 255 →
      (send_command false st ("~B" ++ s ++ "\n")).chBR
          = ringAppend max_samples st.chBR v ∧
      (send_command false st ("~B" ++ s ++ "\n")).recorded_commands
          = st.recorded_commands ++ ["~B" ++ s ++ "\n"] ∧
      (send_command false st ("~B" ++ s ++ "\n")).is_connected = false ∧
      (send_command false st ("~B" ++ s ++ "\n")).sent = st.sent := by
  intro st s v hconn hm hi h0 h255
  have hlen : ¬ (("~B" : String).length + s.length + ("\n" : String).length
      = 1) := by
    rw [string_length_tilde_B, string_length_nl]
    omega
  refine ⟨?_, ?_, ?_, ?_⟩ <;>
    simp [send_command, update_pwm_graph, hconn, hm, hlen,
      pyStartsWith_tilde_B_cmd, pyEndsWith_append_nl, pySlice2m1_tilde_B,
      hi, h0, h255]

/-- Witness for C10: a failing send of `~B200\n` with recording active
still appends 200 to "BR" and records the command, while dropping the
connection and transmitting nothing. -/
theorem C10_failed_send_not_atomic_witness :
    (send_command false (initState true true false) ("~B" ++ "200" ++ "\n")).chBR
        = ringAppend max_samples (initState true true false).chBR 200 ∧
    (send_command false (initState true true false)
        ("~B" ++ "200" ++ "\n")).recorded_commands
        = (initState true true false).recorded_commands
            ++ ["~B" ++ "200" ++ "\n"] ∧
    (send_command false (initState true true false)
        ("~B" ++ "200" ++ "\n")).is_connected = false ∧
    (send_command false (initState true true false)
        ("~B" ++ "200" ++ "\n")).sent = (initState true true false).sent :=
  C10_failed_send_not_atomic (initState true true false) "200" 200 rfl rfl
    (by decide) (by decide) (by decide)
